import Mathlib

/-!
Verification development for the objectbox-go core: the query layer
(objectbox/query.go) and the schema-driven binding generator
(templates, BindingTemplate).

The query layer is embedded as pure functions over an explicit `Query`
state.  Calls into the native engine are modelled by passing the native
response as an explicit argument and by returning the list of native
calls the operation performed; each recorded call carries the value of
the handle (`cQuery != nil`) it was given, so that an operation that
passes a released null handle to the native layer is observable.
-/

/-- Errors produced by the query layer of query.go:
`closedQuery` is `errorClosed` ("illegal state; query was closed"),
`limitOffsetNotSupported` the fmt.Errorf of Count/Remove,
`noValuesGiven` and `tooManyValuesGiven` the arity errors of the
parameter setters, and `nativeError` the `createError()` wrapper for a
failing native call. -/
inductive GoError where
  | closedQuery
  | limitOffsetNotSupported
  | noValuesGiven
  | tooManyValuesGiven
  | nativeError
  deriving DecidableEq, Repr

/-- A call into the native engine, tagged with the value of the handle
argument that was passed: `true` when `cQuery` was non-null, `false`
when a null handle was handed to the native layer. -/
inductive NativeCall where
  | queryClose (handlePresent : Bool)
  | queryFind (handlePresent : Bool)
  | queryFindIds (handlePresent : Bool)
  | queryCount (handlePresent : Bool)
  | queryRemove (handlePresent : Bool)
  | queryDescribeParams (handlePresent : Bool)
  | stringParam (handlePresent : Bool)
  | stringParamsIn (handlePresent : Bool)
  | intParam (handlePresent : Bool)
  | intParams (handlePresent : Bool)
  | int64ParamsIn (handlePresent : Bool)
  | int32ParamsIn (handlePresent : Bool)
  | doubleParam (handlePresent : Bool)
  | doubleParams (handlePresent : Bool)
  | bytesParam (handlePresent : Bool)
  deriving DecidableEq, Repr

/-- The state of a `Query` (query.go): `cQuery` records whether the
native handle is still present (`true` = non-null), together with the
`offset` and `limit` fields (uint64 values, represented as `Nat`). -/
structure Query where
  cQuery : Bool
  offset : Nat
  limit : Nat
  deriving DecidableEq, Repr

/-- `Query.Close`: under the mutex, if the handle is present, call the
native close (its return code is the argument `rc`), null the handle,
and surface an error iff `rc != 0`; otherwise do nothing and
return success.  Result: (returned error, updated query, native calls). -/
def Query.Close (q : Query) (rc : Int) : Option GoError × Query × List NativeCall :=
  if q.cQuery then
    if rc ≠ 0 then (some .nativeError, { q with cQuery := false }, [.queryClose true])
    else (none, { q with cQuery := false }, [.queryClose true])
  else (none, q, [])

/-- `Query.Describe`: closed check on `cQuery`, then the native
describe-params call; `s` is the string the native layer returns. -/
def Query.Describe (q : Query) (s : String) : Except GoError String × List NativeCall :=
  if q.cQuery = false then (.error .closedQuery, [])
  else (.ok s, [.queryDescribeParams true])

/-- `Query.count` (the cursor-scoped private method): closed check,
then `obx_query_count`; `native = none` models a non-zero return code. -/
def Query.count (q : Query) (native : Option Nat) : Except GoError Nat × List NativeCall :=
  if q.cQuery = false then (.error .closedQuery, [])
  else match native with
    | none => (.error .nativeError, [.queryCount true])
    | some n => (.ok n, [.queryCount true])

/-- `Query.Count`: rejects a non-zero offset/limit before anything
else, otherwise runs the cursor-scoped `count`. -/
def Query.Count (q : Query) (native : Option Nat) : Except GoError Nat × List NativeCall :=
  if q.offset ≠ 0 ∨ q.limit ≠ 0 then (.error .limitOffsetNotSupported, [])
  else q.count native

/-- `Query.remove` (the cursor-scoped private method): closed check,
then `obx_query_remove`. -/
def Query.remove (q : Query) (native : Option Nat) : Except GoError Nat × List NativeCall :=
  if q.cQuery = false then (.error .closedQuery, [])
  else match native with
    | none => (.error .nativeError, [.queryRemove true])
    | some n => (.ok n, [.queryRemove true])

/-- `Query.Remove`: rejects a non-zero offset/limit before anything
else, otherwise runs the cursor-scoped `remove`. -/
def Query.Remove (q : Query) (native : Option Nat) : Except GoError Nat × List NativeCall :=
  if q.offset ≠ 0 ∨ q.limit ≠ 0 then (.error .limitOffsetNotSupported, [])
  else q.remove native

/-- `Query.Find` via the cursor-scoped `find`: closed check, then
`obx_query_find`; a `none` native response models a null bytes array
(`createError()`); `α` stands for the decoded, type-erased result. -/
def Query.Find {α : Type} (q : Query) (native : Option α) : Except GoError α × List NativeCall :=
  if q.cQuery = false then (.error .closedQuery, [])
  else match native with
    | none => (.error .nativeError, [.queryFind true])
    | some a => (.ok a, [.queryFind true])

/-- `Query.findIds` (the cursor-scoped private method): closed check,
then `obx_query_find_ids`; returns the Go pair (ids, err) plus the
native calls made.  `ids = none` models a nil Go slice. -/
def Query.findIds (q : Query) (native : Option (List Nat)) :
    Option (List Nat) × Option GoError × List NativeCall :=
  if q.cQuery = false then (none, some .closedQuery, [])
  else match native with
    | none => (none, some .nativeError, [.queryFindIds true])
    | some l => (some l, none, [.queryFindIds true])

/-- The condition of the pagination branch in `Query.FindIds`,
transcribed from `query.offset != 0 || query.limit != 0 && err == nil
&& ids != nil`; `&&` binds tighter than `||` in Go exactly as in this
transcription. -/
def findIdsPaginate (offset limit : Nat) (err : Option GoError) (ids : Option (List Nat)) : Bool :=
  offset != 0 || limit != 0 && err.isNone && ids.isSome

/-- `Query.FindIds`: runs the cursor-scoped `findIds`, then applies
client-side pagination under the `findIdsPaginate` condition: compute
`endOffset` via uint64 arithmetic and return the slice
`ids[offset:endOffset]`.  The outer `Option` models totality of the Go
function: `none` is a runtime panic of the slice expression (index out
of range), `some` a normal return of the (ids, err) pair. -/
def Query.FindIds (q : Query) (native : Option (List Nat)) :
    Option (Option (List Nat) × Option GoError × List NativeCall) :=
  let r := q.findIds native
  if findIdsPaginate q.offset q.limit r.2.1 r.1 then
    let l := r.1.getD []
    let endOffset :=
      if q.limit ≠ 0 ∧ (q.offset + q.limit) % 2 ^ 64 < l.length
      then (q.offset + q.limit) % 2 ^ 64 else l.length
    if q.offset ≤ endOffset then
      some (some ((l.drop q.offset).take (endOffset - q.offset)), none, r.2.2)
    else none
  else some r

/-- The shared tail of every parameter setter: `if rc != 0 { return
createError() }; return nil`, paired with the single native call made. -/
def nativeSetterResult (rc : Int) (c : NativeCall) : Except GoError Unit × List NativeCall :=
  if rc ≠ 0 then (.error .nativeError, [c]) else (.ok (), [c])

/-- `Query.SetStringParams`: zero values is a usage error, one value
goes to `obx_query_string_param` (note: the handle is passed without a
closed check), more than one value is a usage error. -/
def Query.SetStringParams (q : Query) (values : List String) (rc : Int) :
    Except GoError Unit × List NativeCall :=
  if values.length = 0 then (.error .noValuesGiven, [])
  else if values.length = 1 then nativeSetterResult rc (.stringParam q.cQuery)
  else (.error .tooManyValuesGiven, [])

/-- `Query.SetStringParamsIn`: zero values is a usage error, any other
count goes to `obx_query_string_params_in` with the whole list. -/
def Query.SetStringParamsIn (q : Query) (values : List String) (rc : Int) :
    Except GoError Unit × List NativeCall :=
  if values.length = 0 then (.error .noValuesGiven, [])
  else nativeSetterResult rc (.stringParamsIn q.cQuery)

/-- `Query.SetInt64Params`: zero values is a usage error, one value
goes to `obx_query_int_param`, two values to `obx_query_int_params`,
more is a usage error. -/
def Query.SetInt64Params (q : Query) (values : List Int) (rc : Int) :
    Except GoError Unit × List NativeCall :=
  if values.length = 0 then (.error .noValuesGiven, [])
  else if values.length = 1 then nativeSetterResult rc (.intParam q.cQuery)
  else if values.length = 2 then nativeSetterResult rc (.intParams q.cQuery)
  else (.error .tooManyValuesGiven, [])

/-- `Query.SetInt64ParamsIn`: zero values is a usage error, any other
count goes to `obx_query_int64_params_in`. -/
def Query.SetInt64ParamsIn (q : Query) (values : List Int) (rc : Int) :
    Except GoError Unit × List NativeCall :=
  if values.length = 0 then (.error .noValuesGiven, [])
  else nativeSetterResult rc (.int64ParamsIn q.cQuery)

/-- `Query.SetInt32ParamsIn`: zero values is a usage error, any other
count goes to `obx_query_int32_params_in`. -/
def Query.SetInt32ParamsIn (q : Query) (values : List Int) (rc : Int) :
    Except GoError Unit × List NativeCall :=
  if values.length = 0 then (.error .noValuesGiven, [])
  else nativeSetterResult rc (.int32ParamsIn q.cQuery)

/-- `Query.SetFloat64Params`: same arity dispatch as `SetInt64Params`
(zero is an error, one and two values are native calls, more is an
error).  The float64 values are never inspected by this logic, so their
type is a parameter. -/
def Query.SetFloat64Params {α : Type} (q : Query) (values : List α) (rc : Int) :
    Except GoError Unit × List NativeCall :=
  if values.length = 0 then (.error .noValuesGiven, [])
  else if values.length = 1 then nativeSetterResult rc (.doubleParam q.cQuery)
  else if values.length = 2 then nativeSetterResult rc (.doubleParams q.cQuery)
  else (.error .tooManyValuesGiven, [])

/-- `Query.SetBytesParams`: zero values is a usage error, one value
goes to `obx_query_bytes_param`, more is a usage error. -/
def Query.SetBytesParams (q : Query) (values : List (List Nat)) (rc : Int) :
    Except GoError Unit × List NativeCall :=
  if values.length = 0 then (.error .noValuesGiven, [])
  else if values.length = 1 then nativeSetterResult rc (.bytesParam q.cQuery)
  else (.error .tooManyValuesGiven, [])

/-!
Model of the binding generator (templates, BindingTemplate): the
template data that the Flatten section of the generated source depends
on, and the sequence of generated lines it renders for it.
-/

/-- A property of the template's schema model, restricted to the fields
the Flatten section reads: `Name`, `FbType`, `GoType`, `FbSlot`. -/
structure TplProperty where
  name : String
  fbType : String
  goType : String
  fbSlot : Nat
  deriving DecidableEq, Repr

/-- An entity of the template's schema model, restricted to the fields
the Flatten section reads: `Name`, `Properties`, `IdProperty.Name`,
`LastPropertyId.GetId`. -/
structure TplEntity where
  name : String
  properties : List TplProperty
  idPropertyName : String
  lastPropertyId : Nat
  deriving DecidableEq, Repr

/-- The value expression the template puts into a generated
`fbb.Prepend...Slot` line. -/
inductive SlotExpr where
  | offsetOf (propName : String)
  | callerId
  | fieldBool (propName : String)
  | fieldInt32Cast (propName : String)
  | fieldUint32Cast (propName : String)
  | fieldRaw (propName : String)
  deriving DecidableEq, Repr

/-- One generated line of the Flatten body. `todoOffset` is the literal
text "TODO offset creation for the <name>, type $<type> is not
implemented" that the template renders into the generated source. -/
inductive FlattenLine where
  | createStringOffset (propName : String)
  | createByteVectorOffset (propName : String)
  | todoOffset (propName : String) (goType : String)
  | startObject (numSlots : Nat)
  | prepend (fbType : String) (slot : Nat) (value : SlotExpr)
  deriving DecidableEq, Repr

/-- The offset-creation line the template renders for a property, if
any: only for `FbType == "UOffsetT"`; a string gets
`fbutils.CreateStringOffset`, a byte slice
`fbutils.CreateByteVectorOffset`, and any other source type the
TODO placeholder text. -/
def flattenOffsetLine (p : TplProperty) : Option FlattenLine :=
  if p.fbType = "UOffsetT" then
    some (if p.goType = "string" then .createStringOffset p.name
          else if p.goType = "[]byte" then .createByteVectorOffset p.name
          else .todoOffset p.name p.goType)
  else none

/-- The value expression the template renders into a property's
`fbb.Prepend{FbType}Slot({FbSlot}, _, _)` line: the remembered offset
for `UOffsetT`, the caller-supplied id for the id property, the plain
field for `bool`, an `int32(...)` cast for `int`, a `uint32(...)` cast
for `uint`, and the plain field otherwise. -/
def flattenSlotExpr (e : TplEntity) (p : TplProperty) : SlotExpr :=
  if p.fbType = "UOffsetT" then .offsetOf p.name
  else if p.name = e.idPropertyName then .callerId
  else if p.goType = "bool" then .fieldBool p.name
  else if p.goType = "int" then .fieldInt32Cast p.name
  else if p.goType = "uint" then .fieldUint32Cast p.name
  else .fieldRaw p.name

/-- The full sequence of lines the template renders for an entity's
Flatten body: the offset-creation lines for every property (in
declaration order), then `fbb.StartObject(LastPropertyId.GetId)`, then
one `fbb.Prepend{FbType}Slot` line per property in declaration order. -/
def flattenBody (e : TplEntity) : List FlattenLine :=
  e.properties.filterMap flattenOffsetLine
    ++ [.startObject e.lastPropertyId]
    ++ e.properties.map (fun p => .prepend p.fbType p.fbSlot (flattenSlotExpr e p))

/-- Modelled from the spec: the offset-creation step of the encoding
algorithm of the design section — "for every property whose encoded
representation is variable-length (text, byte sequences), first create
its child buffer region and remember its offset". -/
def specOffsetLine (p : TplProperty) : Option FlattenLine :=
  if p.fbType = "UOffsetT" then
    some (if p.goType = "string" then .createStringOffset p.name
          else .createByteVectorOffset p.name)
  else none

/-- Modelled from the spec: the slot-value rule of the encoding
algorithm — "for the identifier property, write the identifier value
supplied by the caller; narrow integer semantic types (int, uint) are
widened to 32-bit slots; bool uses a boolean slot; all others pass
through natively", with variable-length properties writing their
remembered offsets. -/
def specSlotExpr (e : TplEntity) (p : TplProperty) : SlotExpr :=
  if p.name = e.idPropertyName then .callerId
  else if p.fbType = "UOffsetT" then .offsetOf p.name
  else if p.goType = "bool" then .fieldBool p.name
  else if p.goType = "int" then .fieldInt32Cast p.name
  else if p.goType = "uint" then .fieldUint32Cast p.name
  else .fieldRaw p.name

/-- Modelled from the spec: the encoding algorithm of the design
section — step 1 creates the child buffer regions of all
variable-length properties, step 2 opens the record's fixed-size slot
region sized to `lastPropertyId.id` slots, step 3 writes every
property into its table slot in the same order. -/
def specFlattenBody (e : TplEntity) : List FlattenLine :=
  e.properties.filterMap specOffsetLine
    ++ [.startObject e.lastPropertyId]
    ++ e.properties.map (fun p => .prepend p.fbType p.fbSlot (specSlotExpr e p))

/-!
Concrete generated binding for a representative entity, used to settle
the round-trip law.  The entity `Item` has one property of every
semantic type the template distinguishes: uint64 identifier, bool, int,
uint, rune, string, []byte, and a pass-through int64.  `Flatten` and
`ToObject` below are the template's output for this entity, transcribed
over a buffer model; the buffer model itself (fbutils and the
flatbuffers builder/table, which are outside the given sources) is
modelled from the spec.
-/

/-- Modelled from the spec: the value stored in one table slot of the
slotted buffer format — a fixed-width scalar slot holds its raw bit
pattern, a boolean slot its flag, and a variable-length slot the child
region (text or byte sequence) its backward offset reference points to.
fbutils and the flatbuffers table are not among the given sources. -/
inductive FbSlotVal where
  | bits (width : Nat) (pattern : Nat)
  | boolVal (b : Bool)
  | strVal (s : String)
  | bytesVal (bs : List Nat)
  deriving DecidableEq, Repr

/-- Modelled from the spec: a record's fixed-size slot region, mapping
a slot number to its stored value; an absent slot decodes to the
accessor's documented zero-value default. -/
def FbTable : Type := Nat → Option FbSlotVal

/-- The empty buffer table: every slot absent. -/
def FbTable.empty : FbTable := fun _ => none

/-- Store a value into one slot. -/
def FbTable.set (t : FbTable) (slot : Nat) (v : FbSlotVal) : FbTable :=
  fun i => if i = slot then some v else t i

/-- The bit pattern of a Go value converted to uint32 (or of an int32
value reinterpreted as its unsigned pattern): the value modulo 2^32. -/
def uint32bits (x : Int) : Nat := (x % (2 ^ 32 : Int)).toNat

/-- The bit pattern of a 64-bit integer value: the value modulo 2^64. -/
def uint64bits (x : Int) : Nat := (x % (2 ^ 64 : Int)).toNat

/-- The int32 value of a 32-bit pattern (two's complement read). -/
def int32ofBits (b : Nat) : Int :=
  if b < 2 ^ 31 then (b : Int) else (b : Int) - 2 ^ 32

/-- The int64 value of a 64-bit pattern (two's complement read). -/
def int64ofBits (b : Nat) : Int :=
  if b < 2 ^ 63 then (b : Int) else (b : Int) - 2 ^ 64

/-- The Go conversion `int32(x)` applied to an integer of any width:
keep the low 32 bits and read them signed. -/
def goInt32 (x : Int) : Int := int32ofBits (uint32bits x)

/-- Modelled from the spec: a created child buffer region, remembered
by its offset; the generated code creates one per variable-length
property before the fixed region is opened. -/
inductive FbOffset where
  | strOff (s : String)
  | vecOff (bs : List Nat)
  deriving DecidableEq, Repr

namespace fbutils

/-- Modelled from the spec: `fbutils.CreateStringOffset` creates the
child region holding the text and returns its offset. -/
def CreateStringOffset (s : String) : FbOffset := .strOff s

/-- Modelled from the spec: `fbutils.CreateByteVectorOffset` creates
the child region holding the byte sequence and returns its offset. -/
def CreateByteVectorOffset (bs : List Nat) : FbOffset := .vecOff bs

end fbutils

/-- Modelled from the spec: `fbb.PrependBoolSlot(slot, v, d)` — the
flatbuffers builder stores the slot only when the value differs from
the declared default; an absent slot decodes to that default. -/
def FbTable.prependBoolSlot (t : FbTable) (slot : Nat) (v d : Bool) : FbTable :=
  if v = d then t else t.set slot (.boolVal v)

/-- Modelled from the spec: `fbb.PrependUint64Slot(slot, v, d)`. -/
def FbTable.prependUint64Slot (t : FbTable) (slot : Nat) (v d : Nat) : FbTable :=
  if v = d then t else t.set slot (.bits 64 (v % 2 ^ 64))

/-- Modelled from the spec: `fbb.PrependUint32Slot(slot, v, d)`; the
caller passes an already-converted uint32 value. -/
def FbTable.prependUint32Slot (t : FbTable) (slot : Nat) (v d : Nat) : FbTable :=
  if v = d then t else t.set slot (.bits 32 (v % 2 ^ 32))

/-- Modelled from the spec: `fbb.PrependInt32Slot(slot, v, d)`; the
stored pattern is the value's two's complement low 32 bits. -/
def FbTable.prependInt32Slot (t : FbTable) (slot : Nat) (v d : Int) : FbTable :=
  if v = d then t else t.set slot (.bits 32 (uint32bits v))

/-- Modelled from the spec: `fbb.PrependInt64Slot(slot, v, d)`. -/
def FbTable.prependInt64Slot (t : FbTable) (slot : Nat) (v d : Int) : FbTable :=
  if v = d then t else t.set slot (.bits 64 (uint64bits v))

/-- Modelled from the spec: `fbb.PrependUOffsetTSlot(slot, off, 0)` —
a created child region's offset is a non-zero backward reference, so
it never equals the 0 default and the slot is always stored. -/
def FbTable.prependUOffsetTSlot (t : FbTable) (slot : Nat) (off : FbOffset) : FbTable :=
  t.set slot (match off with
    | .strOff s => .strVal s
    | .vecOff bs => .bytesVal bs)

/-- Modelled from the spec: the vtable offset the generated decoder
passes (`FbvTableOffset`) addresses the slot `FbSlot` via the
flatbuffers layout rule `offset = 4 + 2 * slot`; the spec requires the
decoder's table slot to match the one the encoder wrote. -/
def slotOfVtableOffset (vto : Nat) : Nat := (vto - 4) / 2

/-- Modelled from the spec: `table.GetBoolSlot(vto, d)` — the stored
flag, or the default when the slot is absent. -/
def FbTable.GetBoolSlot (t : FbTable) (vto : Nat) (d : Bool) : Bool :=
  match t (slotOfVtableOffset vto) with
  | some (.boolVal b) => b
  | _ => d

/-- Modelled from the spec: `table.GetUint32Slot(vto, d)` — the 32-bit
pattern read unsigned, or the default when the slot is absent. -/
def FbTable.GetUint32Slot (t : FbTable) (vto : Nat) (d : Nat) : Nat :=
  match t (slotOfVtableOffset vto) with
  | some (.bits 32 p) => p
  | _ => d

/-- Modelled from the spec: `table.GetInt32Slot(vto, d)` — the 32-bit
pattern read signed, or the default when the slot is absent. -/
def FbTable.GetInt32Slot (t : FbTable) (vto : Nat) (d : Int) : Int :=
  match t (slotOfVtableOffset vto) with
  | some (.bits 32 p) => int32ofBits p
  | _ => d

/-- Modelled from the spec: `table.GetUint64Slot(vto, d)`. -/
def FbTable.GetUint64Slot (t : FbTable) (vto : Nat) (d : Nat) : Nat :=
  match t (slotOfVtableOffset vto) with
  | some (.bits 64 p) => p
  | _ => d

/-- Modelled from the spec: `table.GetInt64Slot(vto, d)` — the 64-bit
pattern read signed, or the default when the slot is absent. -/
def FbTable.GetInt64Slot (t : FbTable) (vto : Nat) (d : Int) : Int :=
  match t (slotOfVtableOffset vto) with
  | some (.bits 64 p) => int64ofBits p
  | _ => d

/-- Modelled from the spec: `fbutils.GetStringSlot(vto)` — the child
text region the slot references, or the zero value "" when absent. -/
def FbTable.GetStringSlot (t : FbTable) (vto : Nat) : String :=
  match t (slotOfVtableOffset vto) with
  | some (.strVal s) => s
  | _ => ""

/-- Modelled from the spec: `fbutils.GetByteVectorSlot(vto)` — the
child byte-sequence region, or the zero value when absent. -/
def FbTable.GetByteVectorSlot (t : FbTable) (vto : Nat) : List Nat :=
  match t (slotOfVtableOffset vto) with
  | some (.bytesVal bs) => bs
  | _ => []

/-- The representative entity: `Id uint64` (identifier), `Done bool`,
`Count int`, `UCount uint`, `Sym rune`, `Text string`, `Data []byte`,
`Score int64`.  Go int/uint/rune/int64 values are represented as
`Int`/`Nat` with the conversions written out where the generated code
performs them. -/
structure Item where
  Id : Nat
  Done : Bool
  Count : Int
  UCount : Nat
  Sym : Int
  Text : String
  Data : List Nat
  Score : Int
  deriving DecidableEq, Repr

namespace itemEntityInfo

/-- The template's generated `Flatten(entity, fbb, id)` for `Item`:
create the string/byte-vector child regions first, then
`fbb.StartObject(8)`, then one Prepend line per property —
`PrependUint64Slot(0, id, 0)` for the identifier (the caller-supplied
id, not the struct field), `PrependBoolSlot(1, ent.Done, false)`,
`PrependInt32Slot(2, int32(ent.Count), 0)`,
`PrependUint32Slot(3, uint32(ent.UCount), 0)`,
`PrependInt32Slot(4, ent.Sym, 0)`, the two UOffsetT slots, and
`PrependInt64Slot(7, ent.Score, 0)`. -/
def Flatten (ent : Item) (id : Nat) : FbTable :=
  let offsetText := fbutils.CreateStringOffset ent.Text
  let offsetData := fbutils.CreateByteVectorOffset ent.Data
  ((((((((FbTable.empty.prependUint64Slot 0 id 0).prependBoolSlot
    1 ent.Done false).prependInt32Slot
    2 (goInt32 ent.Count) 0).prependUint32Slot
    3 (ent.UCount % 2 ^ 32) 0).prependInt32Slot
    4 ent.Sym 0).prependUOffsetTSlot
    5 offsetText).prependUOffsetTSlot
    6 offsetData).prependInt64Slot
    7 ent.Score 0)

/-- The template's generated `ToObject(bytes)` for `Item`:
`Id: table.GetUint64Slot(4, 0)`, `Done: table.GetBoolSlot(6, false)`,
`Count: int(table.GetUint32Slot(8, 0))`,
`UCount: uint(table.GetUint32Slot(10, 0))`,
`Sym: rune(table.GetInt32Slot(12, 0))`,
`Text: table.GetStringSlot(14)`, `Data: table.GetByteVectorSlot(16)`,
`Score: table.GetInt64Slot(18, 0)`. -/
def ToObject (bytes : FbTable) : Item :=
  { Id := bytes.GetUint64Slot 4 0
    Done := bytes.GetBoolSlot 6 false
    Count := (bytes.GetUint32Slot 8 0 : Int)
    UCount := bytes.GetUint32Slot 10 0
    Sym := bytes.GetInt32Slot 12 0
    Text := bytes.GetStringSlot 14
    Data := bytes.GetByteVectorSlot 16
    Score := bytes.GetInt64Slot 18 0 }

end itemEntityInfo

/-!
Theorems for the claims, one per claim, with witnesses where the
statement carries hypotheses.
-/

/-- The list of native calls a setter tail performs is the single call
it was given, whatever the native return code. -/
theorem nativeSetterResult_calls (rc : Int) (c : NativeCall) :
    (nativeSetterResult rc c).2 = [c] := by
  unfold nativeSetterResult
  split <;> rfl

/-- C5: for every Query whose offset or limit is non-zero, `Count()`
and `Remove()` fail with the explicit unsupported-option error and
perform no native call; with offset and limit both zero (and the handle
present) they proceed to the native count/remove call. -/
theorem claim5_count_remove_option_rejection (q : Query) (c r : Option Nat)
    (hopen : q.cQuery = true) :
    ((q.offset ≠ 0 ∨ q.limit ≠ 0) →
      Query.Count q c = (.error .limitOffsetNotSupported, []) ∧
      Query.Remove q r = (.error .limitOffsetNotSupported, [])) ∧
    (q.offset = 0 → q.limit = 0 →
      (Query.Count q c).2 = [.queryCount true] ∧
      (Query.Remove q r).2 = [.queryRemove true]) := by
  constructor
  · intro h
    constructor <;> simp [Query.Count, Query.Remove, h]
  · intro h0 hl0
    have : ¬(q.offset ≠ 0 ∨ q.limit ≠ 0) := by simp [h0, hl0]
    constructor
    · simp only [Query.Count, if_neg this, Query.count, hopen]
      cases c <;> simp
    · simp only [Query.Remove, if_neg this, Query.remove, hopen]
      cases r <;> simp

/-- C5 witness: a query with offset 1 is rejected by Count and Remove
with no native call. -/
theorem claim5_count_remove_option_rejection_witness :
    Query.Count ⟨true, 1, 0⟩ (some 7) = (.error .limitOffsetNotSupported, []) ∧
    Query.Remove ⟨true, 1, 0⟩ (some 7) = (.error .limitOffsetNotSupported, []) :=
  (claim5_count_remove_option_rejection ⟨true, 1, 0⟩ (some 7) (some 7) rfl).1 (Or.inl one_ne_zero)

/-- C6: parameter-setter arity — string and byte setters accept exactly
one value; the 64-bit integer and double setters exactly one or two;
the "In"-list variants any non-zero count; every other count is
rejected with the matching usage error before any native call. -/
theorem claim6_setter_arity {α : Type} (q : Query) (rc : Int)
    (ss : List String) (bss : List (List Nat)) (xs ys zs : List Int) (fs : List α) :
    (ss.length = 0 → Query.SetStringParams q ss rc = (.error .noValuesGiven, [])) ∧
    (ss.length = 1 → (Query.SetStringParams q ss rc).2 = [.stringParam q.cQuery]) ∧
    (2 ≤ ss.length → Query.SetStringParams q ss rc = (.error .tooManyValuesGiven, [])) ∧
    (bss.length = 0 → Query.SetBytesParams q bss rc = (.error .noValuesGiven, [])) ∧
    (bss.length = 1 → (Query.SetBytesParams q bss rc).2 = [.bytesParam q.cQuery]) ∧
    (2 ≤ bss.length → Query.SetBytesParams q bss rc = (.error .tooManyValuesGiven, [])) ∧
    (xs.length = 0 → Query.SetInt64Params q xs rc = (.error .noValuesGiven, [])) ∧
    (xs.length = 1 → (Query.SetInt64Params q xs rc).2 = [.intParam q.cQuery]) ∧
    (xs.length = 2 → (Query.SetInt64Params q xs rc).2 = [.intParams q.cQuery]) ∧
    (3 ≤ xs.length → Query.SetInt64Params q xs rc = (.error .tooManyValuesGiven, [])) ∧
    (fs.length = 0 → Query.SetFloat64Params q fs rc = (.error .noValuesGiven, [])) ∧
    (fs.length = 1 → (Query.SetFloat64Params q fs rc).2 = [.doubleParam q.cQuery]) ∧
    (fs.length = 2 → (Query.SetFloat64Params q fs rc).2 = [.doubleParams q.cQuery]) ∧
    (3 ≤ fs.length → Query.SetFloat64Params q fs rc = (.error .tooManyValuesGiven, [])) ∧
    (ss.length = 0 → Query.SetStringParamsIn q ss rc = (.error .noValuesGiven, [])) ∧
    (1 ≤ ss.length → (Query.SetStringParamsIn q ss rc).2 = [.stringParamsIn q.cQuery]) ∧
    (ys.length = 0 → Query.SetInt64ParamsIn q ys rc = (.error .noValuesGiven, [])) ∧
    (1 ≤ ys.length → (Query.SetInt64ParamsIn q ys rc).2 = [.int64ParamsIn q.cQuery]) ∧
    (zs.length = 0 → Query.SetInt32ParamsIn q zs rc = (.error .noValuesGiven, [])) ∧
    (1 ≤ zs.length → (Query.SetInt32ParamsIn q zs rc).2 = [.int32ParamsIn q.cQuery]) := by
  refine ⟨?_, ?_, ?_, ?_, ?_, ?_, ?_, ?_, ?_, ?_, ?_, ?_, ?_, ?_, ?_, ?_, ?_, ?_, ?_, ?_⟩ <;>
    intro h <;>
    simp only [Query.SetStringParams, Query.SetBytesParams, Query.SetInt64Params,
      Query.SetFloat64Params, Query.SetStringParamsIn, Query.SetInt64ParamsIn,
      Query.SetInt32ParamsIn] <;>
    split_ifs <;>
    first
      | rfl
      | omega
      | simp [nativeSetterResult_calls]

/-- C6 witness: `SetStringParams` with zero values fails with the
no-values usage error, at a concrete open query. -/
theorem claim6_setter_arity_witness :
    Query.SetStringParams ⟨true, 0, 0⟩ [] 0 = (.error .noValuesGiven, []) :=
  (claim6_setter_arity (α := Unit) ⟨true, 0, 0⟩ 0 [] [] [] [] [] []).1 rfl

/-- C7: `Close()` is idempotent — the first close on an open query
always clears the handle and makes exactly one native close call,
surfacing an error iff the native free call fails; a second close is a
no-op returning success with no native call. -/
theorem claim7_close_idempotent (q : Query) (rc rc2 : Int) (h : q.cQuery = true) :
    ((Query.Close q rc).2.1).cQuery = false ∧
    ((Query.Close q rc).1 = none ↔ rc = 0) ∧
    (Query.Close q rc).2.2 = [.queryClose true] ∧
    Query.Close (Query.Close q rc).2.1 rc2 = (none, (Query.Close q rc).2.1, []) := by
  unfold Query.Close
  rw [h]
  by_cases hrc : rc = 0 <;> simp [hrc]

/-- C7 witness: closing an open query whose native free call fails
surfaces the error, still clears the handle, and a repeated close is a
successful no-op. -/
theorem claim7_close_idempotent_witness :
    ((Query.Close ⟨true, 0, 0⟩ 1).2.1).cQuery = false ∧
    ((Query.Close ⟨true, 0, 0⟩ 1).1 = none ↔ (1 : Int) = 0) ∧
    (Query.Close ⟨true, 0, 0⟩ 1).2.2 = [.queryClose true] ∧
    Query.Close (Query.Close ⟨true, 0, 0⟩ 1).2.1 0 = (none, (Query.Close ⟨true, 0, 0⟩ 1).2.1, []) :=
  claim7_close_idempotent ⟨true, 0, 0⟩ 1 0 rfl

/-- C9: the pagination condition of `FindIds` evaluates, by operator
precedence, as `offset != 0 || (limit != 0 && err == nil && ids !=
nil)`: a non-zero offset takes the branch regardless of the error and
the nil-ness of the identifier list, while for offset zero the branch
requires a non-zero limit, a nil error and a non-nil identifier list. -/
theorem claim9_findids_guard_precedence (offset limit : Nat) (err : Option GoError)
    (ids : Option (List Nat)) :
    findIdsPaginate offset limit err ids = true ↔
      (offset ≠ 0 ∨ (limit ≠ 0 ∧ err = none ∧ ids ≠ none)) := by
  simp only [findIdsPaginate, Bool.or_eq_true, Bool.and_eq_true, bne_iff_ne,
    Option.isNone_iff_eq_none, Option.isSome_iff_ne_none]
  tauto

/-- C10: `FindIds` is not total — whenever the offset is larger than
the identifier list obtained from the cursor-scoped call (the nil list
of a failed or closed call counts as empty), the slice expression
`ids[offset:endOffset]` is out of range and the call panics (modelled
as `none`) instead of returning a result or an error. -/
theorem claim10_findids_panics (q : Query) (native : Option (List Nat))
    (h : ((q.findIds native).1.getD []).length < q.offset) :
    Query.FindIds q native = none := by
  have hoff : q.offset ≠ 0 := by omega
  unfold Query.FindIds
  have hguard : findIdsPaginate q.offset q.limit (q.findIds native).2.1 (q.findIds native).1
      = true := by
    simp [findIdsPaginate, hoff]
  rw [if_pos hguard]
  have hend : (if q.limit ≠ 0 ∧ (q.offset + q.limit) % 2 ^ 64
        < ((q.findIds native).1.getD []).length
      then (q.offset + q.limit) % 2 ^ 64
      else ((q.findIds native).1.getD []).length) < q.offset := by
    split <;> omega
  rw [if_neg (by omega)]

/-- C10 witness: an open query with offset 1 whose native find-ids call
fails (nil list) panics. -/
theorem claim10_findids_panics_witness :
    Query.FindIds ⟨true, 1, 0⟩ none = none :=
  claim10_findids_panics ⟨true, 1, 0⟩ none (by decide)


/-- C4 counterexample: a successful native retrieval of the ten
identifiers [0..9] with offset 11 does not yield the skip/cap result
(the empty list) — the slice expression is out of range and the call
panics. -/
theorem claim4_pagination_counterexample :
    Query.FindIds ⟨true, 11, 0⟩ (some [0, 1, 2, 3, 4, 5, 6, 7, 8, 9]) = none := by decide

/-- C4 (amended): for every successful native identifier retrieval in
which the offset does not exceed the number of retrieved identifiers
(and offset + limit stays below 2^64), `FindIds` applies pagination
client-side after retrieval: it skips the first offset entries and caps
the remainder to limit entries (limit 0 meaning unlimited), preserving
the native order. -/
theorem claim4_findids_pagination (q : Query) (l : List Nat)
    (hopen : q.cQuery = true) (hof : q.offset ≤ l.length)
    (hw : q.offset + q.limit < 2 ^ 64) :
    Query.FindIds q (some l) =
      some (some (if q.limit = 0 then l.drop q.offset else (l.drop q.offset).take q.limit),
        none, [.queryFindIds true]) := by
  have hf : q.findIds (some l) = (some l, none, [.queryFindIds true]) := by
    simp [Query.findIds, hopen]
  have hmod : (q.offset + q.limit) % 2 ^ 64 = q.offset + q.limit := Nat.mod_eq_of_lt hw
  have htake : (l.drop q.offset).take (l.length - q.offset) = l.drop q.offset :=
    List.take_of_length_le (by rw [List.length_drop])
  unfold Query.FindIds
  rw [hf]
  simp only [Option.getD_some, hmod]
  by_cases hl0 : q.limit = 0
  · rw [if_pos hl0]
    by_cases h0 : q.offset = 0
    · have hg : findIdsPaginate q.offset q.limit none (some l) = false := by
        simp [findIdsPaginate, h0, hl0]
      rw [if_neg (by simp [hg])]
      simp [h0]
    · have hg : findIdsPaginate q.offset q.limit none (some l) = true := by
        simp [findIdsPaginate, h0]
      rw [if_pos hg, if_neg (by tauto : ¬(q.limit ≠ 0 ∧ q.offset + q.limit < l.length)),
        if_pos hof, htake]
  · rw [if_neg hl0]
    have hg : findIdsPaginate q.offset q.limit none (some l) = true := by
      simp [findIdsPaginate, hl0]
    by_cases hlt : q.offset + q.limit < l.length
    · rw [if_pos hg, if_pos (⟨hl0, hlt⟩ : q.limit ≠ 0 ∧ q.offset + q.limit < l.length),
        if_pos (Nat.le_add_right q.offset q.limit),
        (by omega : q.offset + q.limit - q.offset = q.limit)]
    · have htake2 : (l.drop q.offset).take q.limit = l.drop q.offset :=
        List.take_of_length_le (by rw [List.length_drop]; omega)
      rw [if_pos hg, if_neg (by tauto : ¬(q.limit ≠ 0 ∧ q.offset + q.limit < l.length)),
        if_pos hof, htake, htake2]

/-- C4 witness: offset 3 with limit 4 on the ten identifiers [0..9]
yields [3,4,5,6]. -/
theorem claim4_findids_pagination_witness :
    Query.FindIds ⟨true, 3, 4⟩ (some [0, 1, 2, 3, 4, 5, 6, 7, 8, 9]) =
      some (some [3, 4, 5, 6], none, [.queryFindIds true]) := by
  have h := claim4_findids_pagination ⟨true, 3, 4⟩ [0, 1, 2, 3, 4, 5, 6, 7, 8, 9]
    rfl (by decide) (by decide)
  simpa using h

/-- C2 counterexample: `SetStringParams` on a closed query with one
value does not return the closed-resource error — it returns success
and makes the native call with the released null handle. -/
theorem claim2_closed_setter_counterexample :
    Query.SetStringParams ⟨false, 0, 0⟩ ["a"] 0 = (.ok (), [.stringParam false]) ∧
    (Query.SetStringParams ⟨false, 0, 0⟩ ["a"] 0).1 ≠ .error .closedQuery :=
  ⟨rfl, nofun⟩

/-- C2 (amended): after `Close()`, `Find` and `Describe` return the
closed-resource error with no native call; `FindIds` does too when the
offset is zero, but panics when the offset is non-zero; `Count` and
`Remove` return the closed-resource error when offset and limit are
both zero (with a non-zero offset/limit their unsupported-options
rejection fires first), again with no native call; the parameter
setters, however, perform no closed check and pass the released null
handle to the native call. -/
theorem claim2_closed_query_operations (q : Query) (rc : Int)
    (findNative : Option (List Nat)) (idsNative : Option (List Nat))
    (cntNative rmNative : Option Nat) (descNative : String)
    (s : String) (x : Int) (bs : List Nat)
    (h : q.cQuery = false) :
    Query.Find q findNative = (.error .closedQuery, []) ∧
    Query.Describe q descNative = (.error .closedQuery, []) ∧
    (q.offset = 0 → Query.FindIds q idsNative = some (none, some .closedQuery, [])) ∧
    (q.offset ≠ 0 → Query.FindIds q idsNative = none) ∧
    (q.offset = 0 → q.limit = 0 →
      Query.Count q cntNative = (.error .closedQuery, []) ∧
      Query.Remove q rmNative = (.error .closedQuery, [])) ∧
    Query.SetStringParams q [s] rc = nativeSetterResult rc (.stringParam false) ∧
    Query.SetStringParamsIn q [s] rc = nativeSetterResult rc (.stringParamsIn false) ∧
    Query.SetInt64Params q [x] rc = nativeSetterResult rc (.intParam false) ∧
    Query.SetInt64ParamsIn q [x] rc = nativeSetterResult rc (.int64ParamsIn false) ∧
    Query.SetInt32ParamsIn q [x] rc = nativeSetterResult rc (.int32ParamsIn false) ∧
    Query.SetFloat64Params q [x] rc = nativeSetterResult rc (.doubleParam false) ∧
    Query.SetBytesParams q [bs] rc = nativeSetterResult rc (.bytesParam false) := by
  have hids : q.findIds idsNative = (none, some .closedQuery, []) := by
    simp [Query.findIds, h]
  refine ⟨?_, ?_, ?_, ?_, ?_, ?_, ?_, ?_, ?_, ?_, ?_, ?_⟩
  · simp [Query.Find, h]
  · simp [Query.Describe, h]
  · intro h0
    have hg : findIdsPaginate q.offset q.limit (some .closedQuery) none = false := by
      simp [findIdsPaginate, h0]
    unfold Query.FindIds
    rw [hids]
    rw [if_neg (by simp [hg])]
  · intro h0
    have hg : findIdsPaginate q.offset q.limit (some .closedQuery) none = true := by
      simp [findIdsPaginate, h0]
    unfold Query.FindIds
    rw [hids]
    rw [if_pos hg]
    simp only [Option.getD_none, List.length_nil]
    rw [if_neg (by omega : ¬(q.limit ≠ 0 ∧ (q.offset + q.limit) % 2 ^ 64 < 0))]
    rw [if_neg (by omega : ¬q.offset ≤ 0)]
  · intro h0 hl0
    constructor
    · simp [Query.Count, Query.count, h, h0, hl0]
    · simp [Query.Remove, Query.remove, h, h0, hl0]
  · simp [Query.SetStringParams, h]
  · simp [Query.SetStringParamsIn, h]
  · simp [Query.SetInt64Params, h]
  · simp [Query.SetInt64ParamsIn, h]
  · simp [Query.SetInt32ParamsIn, h]
  · simp [Query.SetFloat64Params, h]
  · simp [Query.SetBytesParams, h]

/-- C2 witness: on a concrete closed query, `Describe` returns the
closed-resource error with no native call. -/
theorem claim2_closed_query_operations_witness :
    Query.Describe ⟨false, 0, 0⟩ "q" = (.error .closedQuery, []) :=
  (claim2_closed_query_operations ⟨false, 0, 0⟩ 0 none none none none "q" "s" 0 [] rfl).2.1

/-- C3: evaluation at the failing input — a schema with an entity
`Note` whose variable-length property `Tags` has the source type
`[]string`, which the generator has no encoding rule for.  Generation
does not fail: the template renders the unimplemented-case TODO
placeholder text into the generated source and still emits the rest of
the Flatten body. -/
theorem claim3_unrecognized_type_emits_placeholder :
    flattenBody ⟨"Note", [⟨"Id", "Uint64", "uint64", 0⟩, ⟨"Tags", "UOffsetT", "[]string", 1⟩],
        "Id", 2⟩ =
      [.todoOffset "Tags" "[]string", .startObject 2,
        .prepend "Uint64" 0 .callerId, .prepend "UOffsetT" 1 (.offsetOf "Tags")] ∧
    .todoOffset "Tags" "[]string" ∈
      flattenBody ⟨"Note", [⟨"Id", "Uint64", "uint64", 0⟩, ⟨"Tags", "UOffsetT", "[]string", 1⟩],
        "Id", 2⟩ := by
  constructor <;> decide

/-- C8: for every entity whose variable-length properties are all of
source type string or []byte and whose identifier property is not
variable-length, the generated Flatten body follows the specified
encoding algorithm: child buffer regions for all variable-length
properties first, then the fixed-size slot region sized to
`lastPropertyId.id`, then one slot write per property with the
caller-supplied id for the identifier, int/uint widened to 32-bit
slots, a boolean slot for bool, and native pass-through otherwise. -/
theorem claim8_flatten_follows_spec (e : TplEntity)
    (hvar : ∀ p ∈ e.properties, p.fbType = "UOffsetT" →
      p.goType = "string" ∨ p.goType = "[]byte")
    (hid : ∀ p ∈ e.properties, p.name = e.idPropertyName → p.fbType ≠ "UOffsetT") :
    flattenBody e = specFlattenBody e := by
  unfold flattenBody specFlattenBody
  have h1 : e.properties.filterMap flattenOffsetLine = e.properties.filterMap specOffsetLine := by
    apply List.filterMap_congr
    intro p hp
    unfold flattenOffsetLine specOffsetLine
    by_cases hfb : p.fbType = "UOffsetT"
    · rw [if_pos hfb, if_pos hfb]
      rcases hvar p hp hfb with hs | hb
      · rw [if_pos hs, if_pos hs]
      · by_cases hs : p.goType = "string"
        · rw [if_pos hs, if_pos hs]
        · rw [if_neg hs, if_neg hs, if_pos hb]
    · rw [if_neg hfb, if_neg hfb]
  have h2 : e.properties.map (fun p => FlattenLine.prepend p.fbType p.fbSlot (flattenSlotExpr e p))
      = e.properties.map (fun p => FlattenLine.prepend p.fbType p.fbSlot (specSlotExpr e p)) := by
    apply List.map_congr_left
    intro p hp
    have : flattenSlotExpr e p = specSlotExpr e p := by
      unfold flattenSlotExpr specSlotExpr
      by_cases hfb : p.fbType = "UOffsetT" <;> by_cases hname : p.name = e.idPropertyName
      · exact absurd hfb (hid p hp hname)
      · rw [if_pos hfb, if_neg hname, if_pos hfb]
      · rw [if_neg hfb, if_pos hname, if_pos hname]
      · rw [if_neg hfb, if_neg hname, if_neg hname, if_neg hfb]
    rw [this]
  rw [h1, h2]

/-- C8 witness: the entity `Item` of the round-trip development — a
uint64 identifier, bool, int, uint, rune, string, []byte and int64
properties — satisfies the validity hypotheses, and its generated
Flatten body equals the spec-side encoding algorithm. -/
theorem claim8_flatten_follows_spec_witness :
    flattenBody ⟨"Item",
        [⟨"Id", "Uint64", "uint64", 0⟩, ⟨"Done", "Bool", "bool", 1⟩,
         ⟨"Count", "Int32", "int", 2⟩, ⟨"UCount", "Uint32", "uint", 3⟩,
         ⟨"Sym", "Int32", "rune", 4⟩, ⟨"Text", "UOffsetT", "string", 5⟩,
         ⟨"Data", "UOffsetT", "[]byte", 6⟩, ⟨"Score", "Int64", "int64", 7⟩],
        "Id", 8⟩ =
      specFlattenBody ⟨"Item",
        [⟨"Id", "Uint64", "uint64", 0⟩, ⟨"Done", "Bool", "bool", 1⟩,
         ⟨"Count", "Int32", "int", 2⟩, ⟨"UCount", "Uint32", "uint", 3⟩,
         ⟨"Sym", "Int32", "rune", 4⟩, ⟨"Text", "UOffsetT", "string", 5⟩,
         ⟨"Data", "UOffsetT", "[]byte", 6⟩, ⟨"Score", "Int64", "int64", 7⟩],
        "Id", 8⟩ :=
  claim8_flatten_follows_spec _ (by decide) (by decide)

/-- C1: evaluation at the failing input — the record
`Item{Done: true, Count: -1, UCount: 5, Sym: 65, Text: "", Data: [],
Score: -7}` encoded with the caller-supplied identifier 42 does not
decode back to the original with 42 substituted for the identifier:
every field round-trips except `Count`, which comes back as 4294967295
because the generated decoder reads the int slot through the unsigned
32-bit accessor. -/
theorem claim1_roundtrip_counterexample :
    itemEntityInfo.ToObject (itemEntityInfo.Flatten ⟨0, true, -1, 5, 65, "", [], -7⟩ 42) =
      ⟨42, true, 4294967295, 5, 65, "", [], -7⟩ ∧
    itemEntityInfo.ToObject (itemEntityInfo.Flatten ⟨0, true, -1, 5, 65, "", [], -7⟩ 42) ≠
      ⟨42, true, -1, 5, 65, "", [], -7⟩ := by
  constructor <;> decide
